import Mathlib

/-!
# dontdie: battery monitor daemon

A shallow embedding of `main.go` (package `main` of `d4l3k/dontdie`).

* `float64` values are IEEE-754 binary64 bit patterns (`Float64.bits`, read modulo `2^64`);
  the two comparisons the program performs (`>=` and `<`) are decided exactly on them.
* `uint32` values are natural numbers reduced modulo `2^32`.
* The two D-Bus peers (system bus for UPower, session bus for notifications) are an explicit
  `World`: an oracle that fixes what the k-th read and the k-th notify call will answer, together
  with the log of the `notify` invocations made so far.
* A Go function either returns or panics: `Outcome`.  A returned Go `error` is `Option Error`
  (`none` is `nil`).
* `log.Printf` output and the ticker's timing are not modelled; one loop iteration of `run` is
  one tick.
-/

set_option exponentiation.threshold 4000

namespace DontDie

/-! ## float64 -/

/-- An IEEE-754 binary64 value, given by its bit pattern (taken modulo `2^64`). -/
structure Float64 where
  bits : Nat
deriving DecidableEq, Repr

namespace Float64

/-- Sign bit (bit 63). -/
def signBit (x : Float64) : Bool := decide (x.bits / 2 ^ 63 % 2 = 1)

/-- Biased exponent (bits 52..62). -/
def expo (x : Float64) : Nat := x.bits / 2 ^ 52 % 2 ^ 11

/-- Fraction field (bits 0..51). -/
def frac (x : Float64) : Nat := x.bits % 2 ^ 52

def isNaN (x : Float64) : Bool := decide (x.expo = 2047) && decide (x.frac ≠ 0)

def isInf (x : Float64) : Bool := decide (x.expo = 2047) && decide (x.frac = 0)

/-- Magnitude scaled by `2^1074`: for a finite `x` this is exactly `|x| * 2^1074`; for an
infinity it is `2^2098`, above every finite magnitude. -/
def mag (x : Float64) : Nat :=
  if x.expo = 0 then x.frac else (2 ^ 52 + x.frac) * 2 ^ (x.expo - 1)

/-- Signed scaled value; `+0` and `-0` both give `0`. -/
def key (x : Float64) : Int := if x.signBit then -(x.mag : Int) else (x.mag : Int)

/-- Go's `x < y` on float64: false as soon as one operand is NaN. -/
def lt (x y : Float64) : Bool := !x.isNaN && !y.isNaN && decide (x.key < y.key)

/-- Go's `x >= y` on float64: false as soon as one operand is NaN. -/
def ge (x y : Float64) : Bool := !x.isNaN && !y.isNaN && decide (y.key ≤ x.key)

/-- The zero value of `float64` (`+0`). -/
def zero : Float64 := ⟨0⟩

end Float64

/-- One decimal digit as a character. -/
def digitChar (n : Nat) : Char := Char.ofNat (48 + n % 10)

/-- Decimal digits of a natural number, most significant first (`fuel` bounds the length). -/
def natDigits : Nat → Nat → List Char
  | 0, _ => []
  | fuel + 1, n => if n < 10 then [digitChar n] else natDigits fuel (n / 10) ++ [digitChar n]

/-- Go's `strconv.FormatFloat(x, 'f', 2, 64)` as used by `fmt` for `%.2f`: the exact binary
value rounded to two decimals, ties to even; the sign bit is kept (also on a zero result). -/
def formatFixed2 (x : Float64) : String :=
  if x.isNaN then "NaN"
  else if x.isInf then (if x.signBit then "-Inf" else "+Inf")
  else
    let n := x.mag * 100
    let q := n / 2 ^ 1074
    let r := n % 2 ^ 1074
    let h := if 2 ^ 1074 < 2 * r ∨ (2 * r = 2 ^ 1074 ∧ q % 2 = 1) then q + 1 else q
    String.mk ((if x.signBit then ['-'] else []) ++ natDigits 400 (h / 100)
      ++ ['.', digitChar (h / 10), digitChar h])

/-- The expression `fmt.Sprintf("%.2f%%", p)` of `checkPowerLevels`. -/
def sprintfPercent (p : Float64) : String := formatFixed2 p ++ "%"

/-! ## time.Duration -/

/-- Nanoseconds, as Go's `time.Duration` (an `int64`). -/
abbrev Duration := Int

def Second : Duration := 1000000000

def Hour : Duration := 3600 * Second

/-- Go `func (d Duration) Milliseconds() int64`: truncating division by `1e6`. -/
def Duration.Milliseconds (d : Duration) : Int := Int.tdiv d 1000000

/-- Conversion `int32(x)` of an `int64`: keep the low 32 bits, two's complement. -/
def toInt32 (x : Int) : Int := (x + 2 ^ 31) % 2 ^ 32 - 2 ^ 31

/-! ## Data model -/

/-- Go `type State uint32`. -/
abbrev State := Nat

def StateUnknown : State := 5
def StateCharging : State := 1
def StateDischarging : State := 2

structure BatteryStatus where
  Percentage : Float64
  State : State
deriving DecidableEq, Repr

/-- The zero value `BatteryStatus{}`. -/
def BatteryStatus.zero : BatteryStatus := ⟨Float64.zero, 0⟩

structure Daemon where
  Status : BatteryStatus
deriving DecidableEq, Repr

/-- The zero value of `Daemon`, what `var d Daemon` declares. -/
def Daemon.zero : Daemon := ⟨BatteryStatus.zero⟩

/-- A Go `error` value. -/
structure Error where
  msg : String
deriving DecidableEq, Repr

/-- How a Go call ends: it returns a value or it panics. -/
inductive Outcome (α : Type) where
  | returned (a : α)
  | panicked (msg : String)
deriving DecidableEq, Repr

/-! ## The bus -/

/-- The dynamic value inside a `dbus.Variant` (`interface{}`), by D-Bus basic type. -/
inductive Value where
  | float64 (x : Float64)
  | uint32 (n : Nat)
  | int32 (n : Int)
  | uint64 (n : Nat)
  | bool (b : Bool)
  | string (s : String)
deriving DecidableEq, Repr

/-- Go's name of the dynamic type, as printed in a failed type assertion. -/
def Value.typeName : Value → String
  | .float64 _ => "float64"
  | .uint32 _ => "uint32"
  | .int32 _ => "int32"
  | .uint64 _ => "uint64"
  | .bool _ => "bool"
  | .string _ => "string"

/-- The type assertion `v.(float64)` in its one-result form: panics on any other type. -/
def Value.assertFloat64 : Value → Outcome Float64
  | .float64 x => .returned x
  | v => .panicked ("interface conversion: interface \x7b\x7d is " ++ v.typeName ++ ", not float64")

/-- The type assertion `v.(uint32)` in its one-result form: panics on any other type. -/
def Value.assertUint32 : Value → Outcome Nat
  | .uint32 n => .returned (n % 2 ^ 32)
  | v => .panicked ("interface conversion: interface \x7b\x7d is " ++ v.typeName ++ ", not uint32")

/-- What the system bus answers during one call of `getBatteryStatus`. -/
structure BusReply where
  /-- Error of `SystemBus(ctx)` (connect, `Auth`, `Hello`), if any. -/
  connect : Option Error
  /-- Result of `GetProperty("org.freedesktop.UPower.Device.Percentage")`. -/
  percentage : Except Error Value
  /-- Result of `GetProperty("org.freedesktop.UPower.Device.State")`. -/
  state : Except Error Value

/-- What the session bus answers during one call of `notify`. -/
structure NotifyReply where
  /-- Error of `dbus.SessionBus()`, if any. -/
  connect : Option Error
  /-- Value of `call.Err` after `org.freedesktop.Notifications.Notify`. -/
  call : Option Error
deriving DecidableEq, Repr

/-- One invocation of `notify`, with what it returned. -/
structure NotifyCall where
  title : String
  message : String
  timeout : Duration
  /-- The `expire_timeout` argument, `int32(timeout.Milliseconds())`. -/
  expireMs : Int
  result : Option Error
deriving DecidableEq, Repr

/-- The environment of the daemon. -/
structure World where
  /-- Answer of the system bus to the k-th call of `getBatteryStatus`. -/
  bus : Nat → BusReply
  /-- Answer of the session bus to the k-th call of `notify`. -/
  session : Nat → NotifyReply
  /-- Number of calls of `getBatteryStatus` made so far. -/
  reads : Nat
  /-- The calls of `notify` made so far, oldest first. -/
  calls : List NotifyCall

/-! ## The program -/

/-- Go `func notify(title, message string, timeout time.Duration) error`. -/
def notify (title message : String) (timeout : Duration) (w : World) : Option Error × World :=
  let reply := w.session w.calls.length
  let result : Option Error :=
    match reply.connect with
    | some err => some err
    | none =>
      match reply.call with
      | some err => some err
      | none => none
  (result, { w with calls := w.calls ++
    [⟨title, message, timeout, toInt32 (Duration.Milliseconds timeout), result⟩] })

/-- Go `func getBatteryStatus(ctx context.Context) (BatteryStatus, error)`. -/
def getBatteryStatus (w : World) : Outcome (BatteryStatus × Option Error) × World :=
  let reply := w.bus w.reads
  let w1 : World := { w with reads := w.reads + 1 }
  match reply.connect with
  | some err => (.returned (BatteryStatus.zero, some err), w1)
  | none =>
    match reply.percentage with
    | .error err => (.returned (BatteryStatus.zero, some err), w1)
    | .ok percentVar =>
      match percentVar.assertFloat64 with
      | .panicked m => (.panicked m, w1)
      | .returned percent =>
        match reply.state with
        | .error err => (.returned (BatteryStatus.zero, some err), w1)
        | .ok stateVar =>
          match stateVar.assertUint32 with
          | .panicked m => (.panicked m, w1)
          | .returned state => (.returned (⟨percent, state⟩, none), w1)

/-- The constant `batteryThreshold := 10.0`. -/
def batteryThreshold : Float64 := ⟨0x4024000000000000⟩

/-- Go `func (d *Daemon) checkPowerLevels(ctx context.Context) error`: the returned error, the
daemon and the world after the call. -/
def Daemon.checkPowerLevels (d : Daemon) (w : World) : Outcome (Option Error) × Daemon × World :=
  match getBatteryStatus w with
  | (.panicked m, w1) => (.panicked m, d, w1)
  | (.returned (_, some err), w1) => (.returned (some err), d, w1)
  | (.returned (status, none), w1) =>
    -- if d.Status.State != status.State { ... }
    let step1 : Option Error × World :=
      if d.Status.State ≠ status.State then
        if status.State = StateDischarging then
          notify "Battery Discharging" (sprintfPercent status.Percentage) (1 * Second) w1
        else if status.State = StateCharging then
          notify "Battery Charging" (sprintfPercent status.Percentage) (1 * Second) w1
        else (none, w1)
      else (none, w1)
    match step1 with
    | (some err, w2) => (.returned (some err), d, w2)
    | (none, w2) =>
      -- if d.Status.Percentage >= batteryThreshold && status.Percentage < batteryThreshold
      let step2 : Option Error × World :=
        if d.Status.Percentage.ge batteryThreshold && status.Percentage.lt batteryThreshold then
          notify "Battery Low! Charge now!" (sprintfPercent status.Percentage) (1 * Hour) w2
        else (none, w2)
      match step2 with
      | (some err, w3) => (.returned (some err), d, w3)
      | (none, w3) => (.returned none, { d with Status := status }, w3)

/-- The loop of `run`, cut after `n` ticks: an error returned by a tick is only logged, a panic
ends the process. -/
def runLoop : Nat → Daemon → World → Outcome (Daemon × World)
  | 0, d, w => .returned (d, w)
  | n + 1, d, w =>
    match d.checkPowerLevels w with
    | (.panicked m, _, _) => .panicked m
    | (.returned _, d1, w1) => runLoop n d1 w1

/-- Go `func run() error`, observed after `n` ticks: `var d Daemon`, then the loop. -/
def run (n : Nat) (w : World) : Outcome (Daemon × World) := runLoop n Daemon.zero w

/-! ## Observations on a tick -/

/-- The calls of `notify` made between world `w` and the later world `w2`. -/
def newCalls (w w2 : World) : List NotifyCall := w2.calls.drop w.calls.length

/-- The notifications issued between `w` and `w2`: title, body, timeout and the `expire_timeout`
argument (milliseconds) of each call of `notify`, in order. -/
def issued (w w2 : World) : List (String × String × Duration × Int) :=
  (newCalls w w2).map fun c => (c.title, c.message, c.timeout, c.expireMs)

/-- A charge-state notification, recognised by its title. -/
def isChargeState (n : String × String × Duration × Int) : Bool :=
  decide (n.1 = "Battery Charging") || decide (n.1 = "Battery Discharging")

/-- The low-battery notification, recognised by its title. -/
def isLowBattery (n : String × String × Duration × Int) : Bool :=
  decide (n.1 = "Battery Low! Charge now!")

/-- Whether a charge-state call of `notify` made between `w` and `w2` returned an error. -/
def chargeStateFailed (w w2 : World) : Bool :=
  (newCalls w w2).any fun c =>
    isChargeState (c.title, c.message, c.timeout, c.expireMs) && c.result.isSome

/-! ## Closed form of a tick

The calls of `notify` made by a tick whose read succeeded, as lists; `tick_of_read` below proves
that `Daemon.checkPowerLevels` computes exactly these. -/

/-- What `notify` returns for a given answer of the session bus. -/
def NotifyReply.err (r : NotifyReply) : Option Error :=
  match r.connect with
  | some err => some err
  | none => r.call

/-- The log entry of one call of `notify`. -/
def mkCall (title message : String) (timeout : Duration) (result : Option Error) : NotifyCall :=
  ⟨title, message, timeout, toInt32 (Duration.Milliseconds timeout), result⟩

/-- The charge-state call of a tick, if the tick makes one. -/
def chargeCalls (prev cur : BatteryStatus) (w : World) : List NotifyCall :=
  if prev.State ≠ cur.State ∧ (cur.State = StateDischarging ∨ cur.State = StateCharging) then
    [mkCall (if cur.State = StateDischarging then "Battery Discharging" else "Battery Charging")
      (sprintfPercent cur.Percentage) (1 * Second) (w.session w.calls.length).err]
  else []

/-- The low-battery call of a tick, if the tick makes one; `k` is the number of calls the tick
made before it. -/
def lowCalls (prev cur : BatteryStatus) (w : World) (k : Nat) : List NotifyCall :=
  if prev.Percentage.ge batteryThreshold && cur.Percentage.lt batteryThreshold then
    [mkCall "Battery Low! Charge now!" (sprintfPercent cur.Percentage) (1 * Hour)
      (w.session (w.calls.length + k)).err]
  else []

/-- The first error among the results of a list of calls. -/
def firstErr : List NotifyCall → Option Error
  | [] => none
  | c :: cs => match c.result with
    | some e => some e
    | none => firstErr cs

/-- All calls of `notify` that a tick with a successful read makes. -/
def tickCalls (prev cur : BatteryStatus) (w : World) : List NotifyCall :=
  let c1 := chargeCalls prev cur w
  if (firstErr c1).isSome then c1 else c1 ++ lowCalls prev cur w c1.length

/-! ## Histories of `run` -/

/-- What the loop of `run` observed in one tick: the value `getBatteryStatus` returned and the
value `checkPowerLevels` returned. -/
structure TickRecord where
  read : Outcome (BatteryStatus × Option Error)
  result : Outcome (Option Error)

/-- The ticks made by the first `n` iterations of the loop of `run`, oldest first; a tick that
panics is the last one. -/
def runTrace : Nat → Daemon → World → List TickRecord
  | 0, _, _ => []
  | n + 1, d, w =>
    match d.checkPowerLevels w with
    | (.panicked m, _, _) => [⟨(getBatteryStatus w).1, .panicked m⟩]
    | (.returned e, d1, w1) => ⟨(getBatteryStatus w).1, .returned e⟩ :: runTrace n d1 w1

/-- The value returned by the most recent successful read of a sequence of ticks, or `init`
when no read succeeded. -/
def lastSuccessfulRead (init : BatteryStatus) : List TickRecord → BatteryStatus
  | [] => init
  | r :: rs =>
    match r.read with
    | .returned (s, none) => lastSuccessfulRead s rs
    | _ => lastSuccessfulRead init rs

/-- The value read by the most recent tick that returned no error, or `init` when there is
none. -/
def lastCleanRead (init : BatteryStatus) : List TickRecord → BatteryStatus
  | [] => init
  | r :: rs =>
    match r.read, r.result with
    | .returned (s, none), .returned none => lastCleanRead s rs
    | _, _ => lastCleanRead init rs

/-! ## Concrete readings and worlds -/

/-- The float64 `8.0`. -/
def f8 : Float64 := ⟨0x4020000000000000⟩
/-- The float64 `9.0`. -/
def f9 : Float64 := ⟨0x4022000000000000⟩
/-- The float64 `12.0`. -/
def f12 : Float64 := ⟨0x4028000000000000⟩
/-- The float64 `50.0`. -/
def f50 : Float64 := ⟨0x4049000000000000⟩
/-- The float64 `55.0`. -/
def f55 : Float64 := ⟨0x404B800000000000⟩
/-- The float64 `60.0`. -/
def f60 : Float64 := ⟨0x404E000000000000⟩

/-- A well-typed answer of UPower: percentage `p` and charge-state code `c`. -/
def goodReply (p : Float64) (c : Nat) : BusReply := ⟨none, .ok (.float64 p), .ok (.uint32 c)⟩

/-- The system bus cannot be reached. -/
def busDown : BusReply :=
  ⟨some ⟨"dial unix /run/dbus/system_bus_socket: connect: no such file or directory"⟩,
    .error ⟨"unreachable"⟩, .error ⟨"unreachable"⟩⟩

/-- The notification service accepts the call. -/
def sessionUp : NotifyReply := ⟨none, none⟩

/-- The notification service rejects the call. -/
def sessionDown : NotifyReply := ⟨none, some ⟨"org.freedesktop.DBus.Error.ServiceUnknown"⟩⟩

/-- A fresh world: no read and no call of `notify` made yet. -/
def freshWorld (bus : Nat → BusReply) (session : Nat → NotifyReply) : World :=
  ⟨bus, session, 0, []⟩

/-- UPower reports `50%, Charging`; notifications work. -/
def worldCharging : World := freshWorld (fun _ => goodReply f50 1) fun _ => sessionUp

/-- UPower reports `9%, Discharging`; notifications work. -/
def worldLow : World := freshWorld (fun _ => goodReply f9 2) fun _ => sessionUp

/-- UPower reports `9%, Discharging`; the notification service rejects every call. -/
def worldLowMuted : World := freshWorld (fun _ => goodReply f9 2) fun _ => sessionDown

/-- UPower reports `55%, Discharging`; notifications work. -/
def worldSteady : World := freshWorld (fun _ => goodReply f55 2) fun _ => sessionUp

/-- The system bus is unreachable. -/
def worldBusDown : World := freshWorld (fun _ => busDown) fun _ => sessionUp

/-- UPower reports `50%, Discharging`; the notification service rejects every call. -/
def worldMuted : World := freshWorld (fun _ => goodReply f50 2) fun _ => sessionDown

/-- UPower reports `50%, Discharging`; the notification service rejects the first call only. -/
def worldMutedOnce : World :=
  freshWorld (fun _ => goodReply f50 2) fun k => if k = 0 then sessionDown else sessionUp

/-- Three polls: `50%, Discharging` with the notification rejected, then an unreachable bus,
then `55%, Discharging` with notifications working. -/
def worldThreeTicks : World :=
  freshWorld (fun k => if k = 0 then goodReply f50 2 else if k = 1 then busDown
    else goodReply f55 2) fun k => if k = 0 then sessionDown else sessionUp

/-- UPower reports charge-state code `3`. -/
def worldStateThree : World := freshWorld (fun _ => goodReply f50 3) fun _ => sessionUp

/-- The `Percentage` property arrives as a `uint32`. -/
def worldBadPercentage : World :=
  freshWorld (fun _ => ⟨none, .ok (.uint32 50), .ok (.uint32 2)⟩) fun _ => sessionUp

/-- The `State` property arrives as a `string`. -/
def worldBadState : World :=
  freshWorld (fun _ => ⟨none, .ok (.float64 f50), .ok (.string "discharging")⟩) fun _ => sessionUp

/-! ## Lemmas -/

theorem getBatteryStatus_world (w : World) :
    (getBatteryStatus w).2 = { w with reads := w.reads + 1 } := by
  simp only [getBatteryStatus]
  repeat' (first | rfl | split)

theorem world_of_read (w w1 : World) (r : Outcome (BatteryStatus × Option Error))
    (h : getBatteryStatus w = (r, w1)) : w1 = { w with reads := w.reads + 1 } := by
  have := getBatteryStatus_world w
  rw [h] at this
  exact this

theorem notify_eq (t m : String) (d : Duration) (w : World) :
    notify t m d w = ((w.session w.calls.length).err,
      { w with calls := w.calls ++ [mkCall t m d (w.session w.calls.length).err] }) := by
  simp only [notify, NotifyReply.err, mkCall]
  cases (w.session w.calls.length).connect <;> cases (w.session w.calls.length).call <;> rfl

/-- A tick whose read succeeds, in closed form. -/
theorem tick_of_read (prev cur : BatteryStatus) (w w1 : World)
    (hread : getBatteryStatus w = (.returned (cur, none), w1)) :
    Daemon.checkPowerLevels ⟨prev⟩ w =
      (.returned (firstErr (tickCalls prev cur w)),
        if (firstErr (tickCalls prev cur w)).isSome then ⟨prev⟩ else ⟨cur⟩,
        { w with reads := w.reads + 1, calls := w.calls ++ tickCalls prev cur w }) := by
  have hw := world_of_read w w1 _ hread
  subst hw
  obtain ⟨pp, ps⟩ := prev
  obtain ⟨cp, cs⟩ := cur
  simp only [Daemon.checkPowerLevels, hread, notify_eq, tickCalls, chargeCalls, lowCalls]
  have hne : StateDischarging ≠ StateCharging := by decide
  have hst : cs = StateDischarging ∨ cs = StateCharging ∨
      (cs ≠ StateDischarging ∧ cs ≠ StateCharging) := by tauto
  rcases hst with hd | hc | ⟨hd, hc⟩
  · subst hd
    by_cases hs : ps = StateDischarging <;>
    by_cases hl : (pp.ge batteryThreshold && cp.lt batteryThreshold) = true <;>
    rcases h0 : (w.session w.calls.length).err with _ | e0 <;>
    rcases h1 : (w.session (w.calls.length + 1)).err with _ | e1 <;>
    simp [hs, hl, h0, h1, firstErr, mkCall, hne]
  · subst hc
    by_cases hs : ps = StateCharging <;>
    by_cases hl : (pp.ge batteryThreshold && cp.lt batteryThreshold) = true <;>
    rcases h0 : (w.session w.calls.length).err with _ | e0 <;>
    rcases h1 : (w.session (w.calls.length + 1)).err with _ | e1 <;>
    simp [hs, hl, h0, h1, firstErr, mkCall, hne.symm]
  · by_cases hs : ps = cs <;>
    by_cases hl : (pp.ge batteryThreshold && cp.lt batteryThreshold) = true <;>
    rcases h0 : (w.session w.calls.length).err with _ | e0 <;>
    rcases h1 : (w.session (w.calls.length + 1)).err with _ | e1 <;>
    simp [hs, hl, h0, h1, firstErr, mkCall, hd, hc]

theorem newCalls_append (w w2 : World) (cs : List NotifyCall) (h : w2.calls = w.calls ++ cs) :
    newCalls w w2 = cs := by
  simp [newCalls, h]

theorem tick_newCalls (prev cur : BatteryStatus) (w w1 : World)
    (hread : getBatteryStatus w = (.returned (cur, none), w1)) :
    newCalls w (Daemon.checkPowerLevels ⟨prev⟩ w).2.2 = tickCalls prev cur w := by
  rw [tick_of_read prev cur w w1 hread]
  exact newCalls_append _ _ _ rfl

theorem expire_second : toInt32 (Duration.Milliseconds Second) = 1000 := by decide

theorem expire_hour : toInt32 (Duration.Milliseconds Hour) = 3600000 := by decide

theorem Float64.ge_eq_false_of_lt (x y : Float64) (h : x.lt y = true) : x.ge y = false := by
  simp only [Float64.lt, Float64.ge, Bool.and_eq_true, decide_eq_true_eq] at h ⊢
  simp only [Bool.and_eq_false_iff, decide_eq_false_iff_not, not_le]
  exact Or.inr h.2

theorem Float64.lt_eq_false_of_ge (x y : Float64) (h : x.ge y = true) : x.lt y = false := by
  cases hlt : x.lt y
  · rfl
  · rw [Float64.ge_eq_false_of_lt x y hlt] at h
    exact absurd h (by decide)

theorem tickCalls_cases (prev cur : BatteryStatus) (w : World) :
    tickCalls prev cur w = [] ∨ (∃ a, tickCalls prev cur w = [a]) ∨
      ∃ a b, tickCalls prev cur w = [a, b] ∧ a.result = none := by
  simp only [tickCalls, chargeCalls, lowCalls]
  by_cases hch : prev.State ≠ cur.State ∧
      (cur.State = StateDischarging ∨ cur.State = StateCharging) <;>
  by_cases hl : (prev.Percentage.ge batteryThreshold && cur.Percentage.lt batteryThreshold) = true <;>
  rcases h0 : (w.session w.calls.length).err with _ | e0 <;>
  simp [hch, hl, h0, firstErr, mkCall]

theorem runLoop_held (n : Nat) : ∀ (d : Daemon) (w : World) (d2 : Daemon) (w2 : World),
    runLoop n d w = .returned (d2, w2) →
    d2.Status = lastCleanRead d.Status (runTrace n d w) := by
  induction n with
  | zero =>
    intro d w d2 w2 h
    simp only [runLoop, Outcome.returned.injEq, Prod.mk.injEq] at h
    simp [runTrace, lastCleanRead, h.1]
  | succ n ih =>
    intro d w d2 w2 h
    rcases hr : getBatteryStatus w with ⟨r, wa⟩
    rcases r with ⟨s, _ | err⟩ | m
    · have ht := tick_of_read d.Status s w wa hr
      have ht2 : d.checkPowerLevels w = _ := ht
      rw [runLoop, ht2] at h
      simp only [] at h
      rw [runTrace, ht2]
      simp only [hr, lastCleanRead]
      rcases hf : firstErr (tickCalls d.Status s w) with _ | e
      · rw [hf] at h
        simpa using ih _ _ _ _ h
      · rw [hf] at h
        simpa using ih _ _ _ _ h
    · have ht : d.checkPowerLevels w = (.returned (some err), d, wa) := by
        simp only [Daemon.checkPowerLevels, hr]
      rw [runLoop, ht] at h
      rw [runTrace, ht]
      simp only [hr, lastCleanRead]
      exact ih _ _ _ _ h
    · have ht : d.checkPowerLevels w = (.panicked m, d, wa) := by
        simp only [Daemon.checkPowerLevels, hr]
      rw [runLoop, ht] at h
      exact absurd h (by simp)

/-! ## Charge-state notification -/

/-- C1: after a successful read of `cur` against held status `prev`, the charge-state
notifications issued by the tick are exactly one when the state changed to Charging or
Discharging (titled accordingly, body the formatted percentage, timeout one second), and none
otherwise; in particular none when the states are equal or the new state is Unknown. -/
theorem checkPowerLevels_charge_state_notification (prev cur : BatteryStatus) (w w1 : World)
    (hread : getBatteryStatus w = (.returned (cur, none), w1)) :
    ((issued w (Daemon.checkPowerLevels ⟨prev⟩ w).2.2).filter isChargeState =
      if cur.State ≠ prev.State ∧ (cur.State = StateCharging ∨ cur.State = StateDischarging) then
        [(if cur.State = StateCharging then "Battery Charging" else "Battery Discharging",
          sprintfPercent cur.Percentage, 1 * Second, 1000)]
      else []) ∧
    (cur.State = prev.State →
      (issued w (Daemon.checkPowerLevels ⟨prev⟩ w).2.2).filter isChargeState = []) ∧
    (cur.State = StateUnknown →
      (issued w (Daemon.checkPowerLevels ⟨prev⟩ w).2.2).filter isChargeState = []) := by
  have hne : StateDischarging ≠ StateCharging := by decide
  have hmain : (issued w (Daemon.checkPowerLevels ⟨prev⟩ w).2.2).filter isChargeState =
      if cur.State ≠ prev.State ∧ (cur.State = StateCharging ∨ cur.State = StateDischarging) then
        [(if cur.State = StateCharging then "Battery Charging" else "Battery Discharging",
          sprintfPercent cur.Percentage, 1 * Second, 1000)]
      else [] := by
    simp only [issued, tick_newCalls prev cur w w1 hread, tickCalls, chargeCalls, lowCalls]
    obtain ⟨pp, ps⟩ := prev
    obtain ⟨cp, cs⟩ := cur
    have hst : cs = StateDischarging ∨ cs = StateCharging ∨
        (cs ≠ StateDischarging ∧ cs ≠ StateCharging) := by tauto
    rcases hst with hd | hc | ⟨hd, hc⟩
    · subst hd
      by_cases hs : ps = StateDischarging <;>
      by_cases hl : (pp.ge batteryThreshold && cp.lt batteryThreshold) = true <;>
      rcases h0 : (w.session w.calls.length).err with _ | e0 <;>
      simp [hs, hl, h0, firstErr, mkCall, hne, isChargeState, expire_second,
        @eq_comm _ StateDischarging ps]
    · subst hc
      by_cases hs : ps = StateCharging <;>
      by_cases hl : (pp.ge batteryThreshold && cp.lt batteryThreshold) = true <;>
      rcases h0 : (w.session w.calls.length).err with _ | e0 <;>
      simp [hs, hl, h0, firstErr, mkCall, hne.symm, isChargeState, expire_second,
        @eq_comm _ StateCharging ps]
    · by_cases hs : ps = cs <;>
      by_cases hl : (pp.ge batteryThreshold && cp.lt batteryThreshold) = true <;>
      simp [hs, hl, firstErr, mkCall, hd, hc, isChargeState, @eq_comm _ cs ps]
  refine ⟨hmain, ?_, ?_⟩
  · intro h
    rw [hmain, if_neg]
    exact fun hh => hh.1 h
  · intro h
    rw [hmain, if_neg]
    rintro ⟨-, h1 | h1⟩ <;> rw [h] at h1 <;> exact absurd h1 (by decide)

/-- C1 witness: scenario C, held `50%, Discharging`, read `50%, Charging`: exactly one
notification "Battery Charging", body "50.00%", timeout one second. -/
theorem checkPowerLevels_charge_state_notification_witness :
    getBatteryStatus worldCharging =
      (.returned (⟨f50, StateCharging⟩, none), { worldCharging with reads := 1 }) ∧
    (issued worldCharging (Daemon.checkPowerLevels ⟨⟨f50, StateDischarging⟩⟩
        worldCharging).2.2).filter isChargeState =
      [("Battery Charging", "50.00%", 1000000000, 1000)] :=
  ⟨rfl, (checkPowerLevels_charge_state_notification ⟨f50, StateDischarging⟩ ⟨f50, StateCharging⟩
    worldCharging _ rfl).1.trans (by decide)⟩

/-! ## Low-battery notification -/

/-- C2 counterexample: held `12%, Charging`, read `9%, Discharging`, the notification service
rejects the "Battery Discharging" call: the threshold was crossed downwards, yet the tick
issues no low-battery notification. -/
theorem low_battery_not_issued_after_failed_notify :
    getBatteryStatus worldLowMuted =
      (.returned (⟨f9, StateDischarging⟩, none), { worldLowMuted with reads := 1 }) ∧
    f12.ge batteryThreshold = true ∧ f9.lt batteryThreshold = true ∧
    (issued worldLowMuted (Daemon.checkPowerLevels ⟨⟨f12, StateCharging⟩⟩
        worldLowMuted).2.2).filter isLowBattery = [] ∧
    issued worldLowMuted (Daemon.checkPowerLevels ⟨⟨f12, StateCharging⟩⟩ worldLowMuted).2.2 =
      [("Battery Discharging", "9.00%", 1000000000, 1000)] :=
  ⟨rfl, by decide, by decide, by decide, by decide⟩

/-- C2 (amended): after a successful read of `cur` against held status `prev`, the tick issues
the low-battery notification (exactly one, one-hour timeout) if and only if
`prev.Percentage >= 10.0`, `cur.Percentage < 10.0` and no charge-state call of `notify` failed
earlier in the tick; it is not issued when both readings are below the threshold. -/
theorem checkPowerLevels_low_battery_notification (prev cur : BatteryStatus) (w w1 : World)
    (hread : getBatteryStatus w = (.returned (cur, none), w1)) :
    ((issued w (Daemon.checkPowerLevels ⟨prev⟩ w).2.2).filter isLowBattery =
      if prev.Percentage.ge batteryThreshold = true ∧ cur.Percentage.lt batteryThreshold = true ∧
          chargeStateFailed w (Daemon.checkPowerLevels ⟨prev⟩ w).2.2 = false then
        [("Battery Low! Charge now!", sprintfPercent cur.Percentage, 1 * Hour, 3600000)]
      else []) ∧
    (prev.Percentage.lt batteryThreshold = true →
      (issued w (Daemon.checkPowerLevels ⟨prev⟩ w).2.2).filter isLowBattery = []) := by
  have hne : StateDischarging ≠ StateCharging := by decide
  have hmain : (issued w (Daemon.checkPowerLevels ⟨prev⟩ w).2.2).filter isLowBattery =
      if prev.Percentage.ge batteryThreshold = true ∧ cur.Percentage.lt batteryThreshold = true ∧
          chargeStateFailed w (Daemon.checkPowerLevels ⟨prev⟩ w).2.2 = false then
        [("Battery Low! Charge now!", sprintfPercent cur.Percentage, 1 * Hour, 3600000)]
      else [] := by
    simp only [issued, chargeStateFailed, tick_newCalls prev cur w w1 hread, tickCalls,
      chargeCalls, lowCalls]
    obtain ⟨pp, ps⟩ := prev
    obtain ⟨cp, cs⟩ := cur
    have hst : cs = StateDischarging ∨ cs = StateCharging ∨
        (cs ≠ StateDischarging ∧ cs ≠ StateCharging) := by tauto
    rcases hst with hd | hc | ⟨hd, hc⟩
    · subst hd
      by_cases hs : ps = StateDischarging <;>
      by_cases hg : pp.ge batteryThreshold = true <;>
      by_cases hl : cp.lt batteryThreshold = true <;>
      rcases h0 : (w.session w.calls.length).err with _ | e0 <;>
      simp [hs, hg, hl, h0, firstErr, mkCall, hne, isChargeState, isLowBattery, expire_hour]
    · subst hc
      by_cases hs : ps = StateCharging <;>
      by_cases hg : pp.ge batteryThreshold = true <;>
      by_cases hl : cp.lt batteryThreshold = true <;>
      rcases h0 : (w.session w.calls.length).err with _ | e0 <;>
      simp [hs, hg, hl, h0, firstErr, mkCall, hne.symm, isChargeState, isLowBattery, expire_hour]
    · by_cases hs : ps = cs <;>
      by_cases hg : pp.ge batteryThreshold = true <;>
      by_cases hl : cp.lt batteryThreshold = true <;>
      simp [hs, hg, hl, firstErr, mkCall, hd, hc, isChargeState, isLowBattery, expire_hour]
  refine ⟨hmain, ?_⟩
  intro h
  rw [hmain, if_neg]
  rintro ⟨hg, -⟩
  rw [Float64.ge_eq_false_of_lt _ _ h] at hg
  exact absurd hg (by decide)

/-- C2 witness: scenario B, held `12%, Discharging`, read `9%, Discharging`: exactly one
low-battery notification, body "9.00%", timeout one hour. -/
theorem checkPowerLevels_low_battery_notification_witness :
    getBatteryStatus worldLow =
      (.returned (⟨f9, StateDischarging⟩, none), { worldLow with reads := 1 }) ∧
    (issued worldLow (Daemon.checkPowerLevels ⟨⟨f12, StateDischarging⟩⟩
        worldLow).2.2).filter isLowBattery =
      [("Battery Low! Charge now!", "9.00%", 3600000000000, 3600000)] :=
  ⟨rfl, (checkPowerLevels_low_battery_notification ⟨f12, StateDischarging⟩ ⟨f9, StateDischarging⟩
    worldLow _ rfl).1.trans (by decide)⟩

/-! ## Failed read -/

/-- C3: when `getBatteryStatus` returns an error, the tick returns that error, the daemon is
unchanged and no call of `notify` is made. -/
theorem checkPowerLevels_read_error (d : Daemon) (w w1 : World) (s : BatteryStatus)
    (err : Error) (hread : getBatteryStatus w = (.returned (s, some err), w1)) :
    (d.checkPowerLevels w).1 = .returned (some err) ∧
    (d.checkPowerLevels w).2.1 = d ∧
    (d.checkPowerLevels w).2.1.Status = d.Status ∧
    newCalls w (d.checkPowerLevels w).2.2 = [] ∧
    issued w (d.checkPowerLevels w).2.2 = [] := by
  have hw := world_of_read w w1 _ hread
  subst hw
  simp [Daemon.checkPowerLevels, hread, issued, newCalls]

/-- C3 witness: scenario E, the system bus is unreachable: the tick returns the connection
error, the held status stays `60%, Discharging`, nothing is issued. -/
theorem checkPowerLevels_read_error_witness :
    getBatteryStatus worldBusDown =
      (.returned (BatteryStatus.zero, busDown.connect), { worldBusDown with reads := 1 }) ∧
    (Daemon.checkPowerLevels ⟨⟨f60, StateDischarging⟩⟩ worldBusDown).2.1.Status =
      ⟨f60, StateDischarging⟩ ∧
    issued worldBusDown (Daemon.checkPowerLevels ⟨⟨f60, StateDischarging⟩⟩ worldBusDown).2.2 =
      [] :=
  have h := checkPowerLevels_read_error ⟨⟨f60, StateDischarging⟩⟩ worldBusDown
    { worldBusDown with reads := 1 } BatteryStatus.zero
    ⟨"dial unix /run/dbus/system_bus_socket: connect: no such file or directory"⟩ rfl
  ⟨rfl, h.2.2.1, h.2.2.2.2⟩

/-! ## Failed notify -/

/-- C4: after a successful read, if a call of `notify` made during the tick returns an error,
the tick returns that error, that call is the last one of the tick (every earlier one
succeeded), and the held status is unchanged. -/
theorem checkPowerLevels_notify_error (prev cur : BatteryStatus) (w w1 : World)
    (hread : getBatteryStatus w = (.returned (cur, none), w1))
    (c : NotifyCall) (e : Error)
    (hc : c ∈ newCalls w (Daemon.checkPowerLevels ⟨prev⟩ w).2.2) (he : c.result = some e) :
    (Daemon.checkPowerLevels ⟨prev⟩ w).1 = .returned (some e) ∧
    (Daemon.checkPowerLevels ⟨prev⟩ w).2.1.Status = prev ∧
    ∃ before, newCalls w (Daemon.checkPowerLevels ⟨prev⟩ w).2.2 = before ++ [c] ∧
      ∀ b ∈ before, b.result = none := by
  rw [tick_newCalls prev cur w w1 hread] at hc ⊢
  rw [tick_of_read prev cur w w1 hread]
  rcases tickCalls_cases prev cur w with h | ⟨a, h⟩ | ⟨a, b, h, ha⟩
  · rw [h] at hc
    exact absurd hc (List.not_mem_nil c)
  · rw [h] at hc ⊢
    have hca : c = a := List.mem_singleton.mp hc
    subst hca
    refine ⟨by simp [firstErr, he], by simp [firstErr, he], [], rfl, ?_⟩
    intro b hb
    exact absurd hb (List.not_mem_nil b)
  · rw [h] at hc ⊢
    rcases List.mem_cons.mp hc with hca | hcb
    · subst hca
      rw [ha] at he
      exact absurd he (by simp)
    · have hcb2 : c = b := List.mem_singleton.mp hcb
      subst hcb2
      refine ⟨by simp [firstErr, he, ha], by simp [firstErr, he, ha], [a], rfl, ?_⟩
      intro x hx
      rw [List.mem_singleton.mp hx]
      exact ha

/-- C4 witness: held `12%, Charging`, read `9%, Discharging`, the "Battery Discharging" call is
rejected: the tick returns that error and the held status stays `12%, Charging`. -/
theorem checkPowerLevels_notify_error_witness :
    (Daemon.checkPowerLevels ⟨⟨f12, StateCharging⟩⟩ worldLowMuted).1 =
      .returned sessionDown.call ∧
    (Daemon.checkPowerLevels ⟨⟨f12, StateCharging⟩⟩ worldLowMuted).2.1.Status =
      ⟨f12, StateCharging⟩ :=
  have h := checkPowerLevels_notify_error ⟨f12, StateCharging⟩ ⟨f9, StateDischarging⟩
    worldLowMuted { worldLowMuted with reads := 1 } rfl
    ⟨"Battery Discharging", "9.00%", 1000000000, 1000, sessionDown.call⟩
    ⟨"org.freedesktop.DBus.Error.ServiceUnknown"⟩ (by decide) rfl
  ⟨h.1, h.2.1⟩

/-! ## Successful tick -/

/-- C5: after a successful read of `cur`, if every call of `notify` made during the tick
succeeds, the tick returns no error and the held status becomes `cur`. -/
theorem checkPowerLevels_success (prev cur : BatteryStatus) (w w1 : World)
    (hread : getBatteryStatus w = (.returned (cur, none), w1))
    (hok : ∀ c ∈ newCalls w (Daemon.checkPowerLevels ⟨prev⟩ w).2.2, c.result = none) :
    (Daemon.checkPowerLevels ⟨prev⟩ w).1 = .returned none ∧
    (Daemon.checkPowerLevels ⟨prev⟩ w).2.1.Status = cur ∧
    (Daemon.checkPowerLevels ⟨prev⟩ w).2.1.Status.Percentage = cur.Percentage ∧
    (Daemon.checkPowerLevels ⟨prev⟩ w).2.1.Status.State = cur.State := by
  rw [tick_newCalls prev cur w w1 hread] at hok
  rw [tick_of_read prev cur w w1 hread]
  have hnone : firstErr (tickCalls prev cur w) = none := by
    generalize tickCalls prev cur w = cs at hok
    induction cs with
    | nil => rfl
    | cons c cs ih =>
      have hc := hok c (List.mem_cons_self _ _)
      simp only [firstErr, hc]
      exact ih fun b hb => hok b (List.mem_cons_of_mem _ hb)
  simp [hnone]

/-- C5 witness: scenario A, held `60%, Discharging`, read `55%, Discharging`: no error, nothing
issued, the held status becomes `55%, Discharging`. -/
theorem checkPowerLevels_success_witness :
    issued worldSteady (Daemon.checkPowerLevels ⟨⟨f60, StateDischarging⟩⟩ worldSteady).2.2 =
      [] ∧
    (Daemon.checkPowerLevels ⟨⟨f60, StateDischarging⟩⟩ worldSteady).1 = .returned none ∧
    (Daemon.checkPowerLevels ⟨⟨f60, StateDischarging⟩⟩ worldSteady).2.1.Status =
      ⟨f55, StateDischarging⟩ :=
  have h := checkPowerLevels_success ⟨f60, StateDischarging⟩ ⟨f55, StateDischarging⟩
    worldSteady { worldSteady with reads := 1 } rfl (by decide)
  ⟨by decide, h.1, h.2.1⟩

/-! ## Held status across ticks -/

/-- C6 counterexample: one tick reads `50%, Discharging` successfully but the notification is
rejected: the held status is still the initial one, not the value of the most recent
successful read. -/
theorem held_status_is_not_last_successful_read :
    run 1 worldMuted = .returned (Daemon.zero,
      (Daemon.zero.checkPowerLevels worldMuted).2.2) ∧
    lastSuccessfulRead BatteryStatus.zero (runTrace 1 Daemon.zero worldMuted) =
      ⟨f50, StateDischarging⟩ ∧
    Daemon.zero.Status ≠ lastSuccessfulRead BatteryStatus.zero (runTrace 1 Daemon.zero worldMuted) :=
  ⟨rfl, by decide, by decide⟩

/-- C6 (amended): after any number of ticks of `run`, the held status is the value read by the
most recent tick that returned no error (its read succeeded and so did every call of `notify`
it made), or the initial value when there is no such tick; every other tick leaves it
unchanged. -/
theorem run_held_status (n : Nat) (w w2 : World) (d : Daemon)
    (h : run n w = .returned (d, w2)) :
    d.Status = lastCleanRead BatteryStatus.zero (runTrace n Daemon.zero w) :=
  runLoop_held n Daemon.zero w d w2 h

/-- C6 witness: three ticks (read succeeds but the notification is rejected; the bus is
unreachable; read of `55%, Discharging` with notifications working): the held status ends as
`55%, Discharging`. -/
theorem run_held_status_witness :
    lastCleanRead BatteryStatus.zero (runTrace 3 Daemon.zero worldThreeTicks) =
      ⟨f55, StateDischarging⟩ ∧
    ∃ w2, run 3 worldThreeTicks = .returned (⟨⟨f55, StateDischarging⟩⟩, w2) ∧
      (⟨⟨f55, StateDischarging⟩⟩ : Daemon).Status =
        lastCleanRead BatteryStatus.zero (runTrace 3 Daemon.zero worldThreeTicks) :=
  ⟨by decide, _, rfl, run_held_status 3 worldThreeTicks _ ⟨⟨f55, StateDischarging⟩⟩ rfl⟩

/-! ## Charge-state codes -/

/-- C7 counterexample: the bus returns charge-state code `3`; the stored state is `3`, not
`StateUnknown`. -/
theorem state_code_three_is_not_unknown :
    (getBatteryStatus worldStateThree).1 = .returned (⟨f50, 3⟩, none) ∧
    (3 : State) ≠ StateUnknown ∧ (3 : State) ≠ StateCharging ∧ (3 : State) ≠ StateDischarging :=
  ⟨rfl, by decide, by decide, by decide⟩

/-- C7 (amended): for every 32-bit charge-state code `c` returned by the bus, the state stored
by `getBatteryStatus` is `c` itself (the conversion `State(c)`): it is `StateCharging` exactly
when `c = 1`, `StateDischarging` exactly when `c = 2` and `StateUnknown` exactly when
`c = 5`. -/
theorem getBatteryStatus_state (w : World) (p : Float64) (c : Nat) (hc : c < 2 ^ 32)
    (hbus : w.bus w.reads = ⟨none, .ok (.float64 p), .ok (.uint32 c)⟩) :
    ∃ s, (getBatteryStatus w).1 = .returned (s, none) ∧ s.Percentage = p ∧ s.State = c ∧
      (s.State = StateCharging ↔ c = 1) ∧ (s.State = StateDischarging ↔ c = 2) ∧
      (s.State = StateUnknown ↔ c = 5) := by
  refine ⟨⟨p, c⟩, ?_, rfl, rfl, Iff.rfl, Iff.rfl, Iff.rfl⟩
  simp only [getBatteryStatus, hbus, Value.assertFloat64, Value.assertUint32,
    Nat.mod_eq_of_lt hc]

/-- C7 witness: code `2` is stored as `StateDischarging`. -/
theorem getBatteryStatus_state_witness :
    ∃ s, (getBatteryStatus worldLow).1 = .returned (s, none) ∧ s.Percentage = f9 ∧ s.State = 2 ∧
      (s.State = StateCharging ↔ 2 = 1) ∧ (s.State = StateDischarging ↔ 2 = 2) ∧
      (s.State = StateUnknown ↔ 2 = 5) :=
  getBatteryStatus_state worldLow f9 2 (by decide) rfl

/-! ## Ill-typed properties -/

/-- C8: a `Percentage` property that is not a float64, or a `State` property that is not a
uint32, makes `getBatteryStatus` panic; the panic propagates through `checkPowerLevels` and
ends `run`. -/
theorem getBatteryStatus_type_mismatch_panics :
    (getBatteryStatus worldBadPercentage).1 =
      .panicked "interface conversion: interface \x7b\x7d is uint32, not float64" ∧
    (getBatteryStatus worldBadState).1 =
      .panicked "interface conversion: interface \x7b\x7d is string, not uint32" ∧
    (Daemon.zero.checkPowerLevels worldBadPercentage).1 =
      .panicked "interface conversion: interface \x7b\x7d is uint32, not float64" ∧
    run 1 worldBadPercentage =
      .panicked "interface conversion: interface \x7b\x7d is uint32, not float64" ∧
    run 1 worldBadState =
      .panicked "interface conversion: interface \x7b\x7d is string, not uint32" :=
  ⟨rfl, rfl, rfl, rfl, rfl⟩

/-! ## The same reading twice -/

/-- C9 counterexample: two consecutive ticks read `50%, Discharging`; the first one's
notification is rejected, so the second tick issues "Battery Discharging". -/
theorem same_reading_twice_notifies_again :
    (getBatteryStatus worldMutedOnce).1 = .returned (⟨f50, StateDischarging⟩, none) ∧
    (getBatteryStatus (Daemon.zero.checkPowerLevels worldMutedOnce).2.2).1 =
      .returned (⟨f50, StateDischarging⟩, none) ∧
    issued (Daemon.zero.checkPowerLevels worldMutedOnce).2.2
      ((Daemon.zero.checkPowerLevels worldMutedOnce).2.1.checkPowerLevels
        (Daemon.zero.checkPowerLevels worldMutedOnce).2.2).2.2 =
      [("Battery Discharging", "50.00%", 1000000000, 1000)] :=
  ⟨rfl, rfl, by decide⟩

/-- C9 (amended): if a tick reads `r` and returns no error, and the next tick also reads `r`,
then the second tick makes no call of `notify` at all. -/
theorem checkPowerLevels_same_reading_twice (d d1 : Daemon) (w wa w1 wb : World)
    (r : BatteryStatus)
    (hread1 : getBatteryStatus w = (.returned (r, none), wa))
    (htick1 : d.checkPowerLevels w = (.returned none, d1, w1))
    (hread2 : getBatteryStatus w1 = (.returned (r, none), wb)) :
    newCalls w1 (d1.checkPowerLevels w1).2.2 = [] ∧
    issued w1 (d1.checkPowerLevels w1).2.2 = [] := by
  have ht : d.checkPowerLevels w = _ := tick_of_read d.Status r w wa hread1
  rw [htick1] at ht
  simp only [Prod.mk.injEq, Outcome.returned.injEq] at ht
  have hd1 : d1 = ⟨r⟩ := by
    rw [ht.2.1, ← ht.1]
    rfl
  subst hd1
  have hcalls : tickCalls r r w1 = [] := by
    simp only [tickCalls, chargeCalls, lowCalls]
    cases hg : r.Percentage.ge batteryThreshold
    · simp [firstErr]
    · simp [firstErr, Float64.lt_eq_false_of_ge _ _ hg]
  simp only [issued, tick_newCalls r r w1 wb hread2, hcalls, List.map_nil, and_self]

/-- C9 witness: held `60%, Discharging`; two consecutive ticks read `55%, Discharging` and the
first returns no error: the second one issues nothing. -/
theorem checkPowerLevels_same_reading_twice_witness :
    (Daemon.checkPowerLevels ⟨⟨f60, StateDischarging⟩⟩ worldSteady).1 = .returned none ∧
    issued { worldSteady with reads := 1 }
      (Daemon.checkPowerLevels ⟨⟨f55, StateDischarging⟩⟩
        { worldSteady with reads := 1 }).2.2 = [] :=
  ⟨rfl, (checkPowerLevels_same_reading_twice ⟨⟨f60, StateDischarging⟩⟩
    ⟨⟨f55, StateDischarging⟩⟩ worldSteady { worldSteady with reads := 1 }
    { worldSteady with reads := 1 } { worldSteady with reads := 2 }
    ⟨f55, StateDischarging⟩ rfl rfl rfl).2⟩

/-! ## Initial status -/

/-- C10 counterexample: the state of the zero-valued daemon is `0`, which is not
`StateUnknown`. -/
theorem initial_state_is_not_unknown :
    Daemon.zero.Status.State = 0 ∧ StateUnknown = 5 ∧ Daemon.zero.Status.State ≠ StateUnknown :=
  ⟨rfl, rfl, by decide⟩

/-- C10 (amended): before the first tick `run` holds the zero value of `BatteryStatus`:
percentage `+0` and state `0`, which is none of `StateUnknown`, `StateCharging`,
`StateDischarging`. -/
theorem run_initial_status (w : World) :
    run 0 w = .returned (Daemon.zero, w) ∧
    Daemon.zero.Status.Percentage = Float64.zero ∧ Daemon.zero.Status.Percentage.key = 0 ∧
    Daemon.zero.Status.State = 0 ∧
    Daemon.zero.Status.State ≠ StateUnknown ∧ Daemon.zero.Status.State ≠ StateCharging ∧
    Daemon.zero.Status.State ≠ StateDischarging :=
  ⟨rfl, rfl, by decide, rfl, by decide, by decide, by decide⟩

end DontDie
